import Mathlib

/-!
Verification of the Capsule Telegram bot core (account provisioning,
balance aggregation, transfer conversations) against its specification.

The TypeScript sources are embedded shallowly:
* the MongoDB `User` document (`src/db/models.ts`) becomes the structure
  `DBUser`, and the store a list of documents with `findOne` lookup;
* external collaborators (Capsule signer, RPC clients, `parseFloat`,
  `viem.isAddress`, `@solana/web3.js` key parsing) are oracles supplied in
  environment records, with `Except` encoding a thrown JS exception;
* each handler in `src/utils/callbacks.ts` becomes a pure function from its
  environment, the store and the inbound data to its observable outcome
  (messages replied, store after the call, accounts shown, executor calls).
-/

namespace CapsuleBot

/-- One `User` document of the MongoDB store (`src/db/models.ts`): the
Telegram id (unique lookup key), the display username, and per chain the
Capsule user share and the public address. -/
structure DBUser where
  telegramId : String
  username : String
  evmUserShare : String
  evmAddress : String
  solanaUserShare : String
  solanaAddress : String
deriving Repr, DecidableEq

/-- The durable user store: the list of saved `User` documents. -/
abbrev Store := List DBUser

/-- `User.findOne({ telegramId })`: first document with the given id. -/
def findOne (store : Store) (tid : String) : Option DBUser :=
  store.find? (fun u => u.telegramId == tid)

/-- `user.save()`: append the new document to the store. -/
def saveUser (store : Store) (u : DBUser) : Store := store ++ [u]

/-! ### Address validators -/

/-- Character class `[a-fA-F0-9]` of the EVM address regex. -/
def isEvmHexDigit (c : Char) : Bool :=
  (decide ('0' ≤ c) && decide (c ≤ '9')) ||
  (decide ('a' ≤ c) && decide (c ≤ 'f')) ||
  (decide ('A' ≤ c) && decide (c ≤ 'F'))

/-- Counted repetition `[a-fA-F0-9]{n}` anchored at the end of input:
exactly `n` hex digits remain. -/
def matchHex : Nat → List Char → Bool
  | 0, [] => true
  | 0, _ :: _ => false
  | _ + 1, [] => false
  | n + 1, c :: rest => isEvmHexDigit c && matchHex n rest

/-- `isValidEthereumAddress` (`src/utils/wallet.ts`): the regex
`/^0x[a-fA-F0-9]\x7b40\x7d$/` run on the characters of the candidate. -/
def isValidEthereumAddress (s : String) : Bool :=
  match s.data with
  | c0 :: c1 :: rest => decide (c0 = '0') && decide (c1 = 'x') && matchHex 40 rest
  | _ => false

/-- The destination check of the legacy `transferConversation`
(`src/utils/wallet.ts`, related revision): `destAddress.startsWith("0x")`
and `destAddress.length === 42`. -/
def transferConversationAddressCheck (s : String) : Bool :=
  decide (s.data.take 2 = ['0', 'x']) && decide (s.data.length = 42)

/-- The spec's wording of the EVM address pattern, stated independently of
the regex engine: the first two characters are `0x` and what follows is
exactly 40 case-insensitive hex digits. -/
def specEvmPattern (s : String) : Bool :=
  decide (s.data.take 2 = ['0', 'x']) &&
  decide ((s.data.drop 2).length = 40) &&
  (s.data.drop 2).all isEvmHexDigit

lemma matchHex_eq (n : Nat) (l : List Char) :
    matchHex n l = (decide (l.length = n) && l.all isEvmHexDigit) := by
  induction n generalizing l with
  | zero => cases l <;> simp [matchHex]
  | succ n ih =>
    cases l with
    | nil => simp [matchHex]
    | cons c t =>
      simp only [matchHex, ih, List.all_cons, List.length_cons]
      cases h : isEvmHexDigit c <;>
        cases h2 : t.all isEvmHexDigit <;>
          simp [h, h2, Nat.succ_inj]

lemma isValidEthereumAddress_eq_spec (s : String) :
    isValidEthereumAddress s = specEvmPattern s := by
  unfold isValidEthereumAddress specEvmPattern
  match h : s.data with
  | [] => simp
  | [c] => simp
  | c0 :: c1 :: rest =>
    simp only [matchHex_eq, List.take, List.drop, List.length_cons]
    cases hc0 : decide (c0 = '0') <;> cases hc1 : decide (c1 = 'x') <;>
      simp_all [List.cons.injEq, decide_eq_true_eq]

lemma specEvmPattern_implies_legacy (s : String)
    (h : specEvmPattern s = true) : transferConversationAddressCheck s = true := by
  unfold specEvmPattern at h
  rw [Bool.and_eq_true, Bool.and_eq_true] at h
  obtain ⟨⟨h1, h2⟩, -⟩ := h
  rw [decide_eq_true_eq] at h1 h2
  unfold transferConversationAddressCheck
  rw [Bool.and_eq_true, decide_eq_true_eq, decide_eq_true_eq]
  refine ⟨h1, ?_⟩
  calc s.data.length
      = (s.data.take 2 ++ s.data.drop 2).length := by rw [List.take_append_drop]
    _ = (s.data.take 2).length + (s.data.drop 2).length := List.length_append _ _
    _ = 42 := by rw [h1, h2]; rfl

/-- C4 (amended): `isValidEthereumAddress` accepts exactly the strings
matching the `0x`-plus-40-hex-digits pattern, and every pattern-matching
string is also accepted by the legacy `transferConversation` destination
check; that legacy check, however, only inspects the `0x` prefix and the
total length 42, so the original biconditional fails for it (see the
counterexample). -/
theorem C4_evm_validation_amended :
    (∀ s : String, isValidEthereumAddress s = specEvmPattern s) ∧
    (∀ s : String, specEvmPattern s = true →
      transferConversationAddressCheck s = true) :=
  ⟨isValidEthereumAddress_eq_spec, specEvmPattern_implies_legacy⟩

/-- C4 witness: a concrete pattern-matching address is accepted by both
validators. -/
theorem C4_evm_validation_witness :
    transferConversationAddressCheck
      "0xaaaaaaaaaaaaaaaaaaaaaaaaaaaaaaaaaaaaaaaa" = true :=
  C4_evm_validation_amended.2 _ (by decide)

/-- C4 counterexample: a 42-character string of non-hex characters after
`0x` is accepted by the `transferConversation` destination check although
it does not match the EVM address pattern, refuting the claim that EVM
address validation accepts a string only if it is `0x` plus 40 hex
digits. -/
theorem C4_evm_validation_cex :
    transferConversationAddressCheck
      "0xzzzzzzzzzzzzzzzzzzzzzzzzzzzzzzzzzzzzzzzz" = true ∧
    specEvmPattern "0xzzzzzzzzzzzzzzzzzzzzzzzzzzzzzzzzzzzzzzzz" = false ∧
    isValidEthereumAddress "0xzzzzzzzzzzzzzzzzzzzzzzzzzzzzzzzzzzzzzzzz" = false := by
  refine ⟨by decide, by decide, by decide⟩

/-! ### Balance aggregator (`handleWallet`, `src/utils/callbacks.ts`) -/

/-- The user-visible messages `handleWallet` can emit, in reply order.
Balance messages carry the displayed numeric value. -/
inductive WalletMsg
  | genericError
  | noAccount
  | addresses (evm sol : String)
  | ethBalance (amount : ℚ)
  | solBalance (amount : ℚ)
  | fetchError
deriving Repr, DecidableEq

/-- Collaborator outcomes for one `handleWallet` call: the EVM
`client.getBalance` result in wei and the Solana `getBalance` result in
lamports; `Except.error` models a thrown exception. -/
structure WalletEnv where
  ethQuery : Except String Nat
  solQuery : Except String Nat

/-- Value shown by viem's `formatEther`: the exact quotient wei / 10^18. -/
def formatEther (wei : Nat) : ℚ := (wei : ℚ) / 10 ^ 18

/-- Value shown by JavaScript `x.toFixed(4)`: `x` rounded to the nearest
multiple of 1/10^4 (ties away from the floor side for positive values). -/
def toFixed4 (x : ℚ) : ℚ := ((round (x * 10 ^ 4) : ℤ) : ℚ) / 10 ^ 4

/-- The displayed Solana balance: `(solBalance / 10 ** 9).toFixed(4)`. -/
def solDisplay (lamports : Nat) : ℚ := toFixed4 ((lamports : ℚ) / 10 ^ 9)

/-- The single `try` block of `handleWallet`: fetch and reply the EVM
balance, then fetch and reply the Solana balance; a throw anywhere inside
is answered by one generic fetch-error reply, skipping the rest. -/
def balanceReplies (env : WalletEnv) : List WalletMsg :=
  match env.ethQuery with
  | .error _ => [.fetchError]
  | .ok wei =>
    WalletMsg.ethBalance (formatEther wei) ::
      match env.solQuery with
      | .error _ => [.fetchError]
      | .ok lam => [WalletMsg.solBalance (solDisplay lam)]

/-- `handleWallet`: resolve the account, reply with both addresses, then
run the balance-fetching `try` block. -/
def handleWallet (env : WalletEnv) (store : Store) (tid? : Option String) :
    List WalletMsg :=
  match tid? with
  | none => [.genericError]
  | some tid =>
    match findOne store tid with
    | none => [.noAccount]
    | some u =>
      WalletMsg.addresses u.evmAddress u.solanaAddress :: balanceReplies env

/-- A fixed registered account used for concrete instantiations. -/
def u0 : DBUser :=
  ⟨"1001", "alice", "evm-share", "0xabc", "sol-share", "SolAddr111"⟩

/-- Does a message report a Solana balance? -/
def isSolBalanceMsg : WalletMsg → Bool
  | .solBalance _ => true
  | _ => false

/-- C1 counterexample: with the EVM query throwing and the Solana query
succeeding (5 SOL of lamports available), `handleWallet` emits only the
addresses and one fetch-error message — no Solana balance is shown, so a
failure on the EVM chain does discard the succeeding chain's balance. -/
theorem C1_balance_isolation_cex :
    handleWallet ⟨Except.error "rpc down", Except.ok 5000000000⟩ [u0]
        (some "1001") =
      [WalletMsg.addresses "0xabc" "SolAddr111", WalletMsg.fetchError] ∧
    (handleWallet ⟨Except.error "rpc down", Except.ok 5000000000⟩ [u0]
        (some "1001")).any isSolBalanceMsg = false := by
  exact ⟨by decide, by decide⟩

/-- C1 (amended): failure isolation is one-directional only. Both balance
queries run inside one `try` block, so if the EVM query throws, the reply
list is just the addresses plus a single fetch-error message and the
Solana balance is never fetched or shown; only in the other direction — a
Solana failure after a successful EVM query — does the already-sent EVM
balance survive, followed by the fetch-error message. -/
theorem C1_balance_isolation_amended :
    ∀ (env : WalletEnv) (store : Store) (tid : String) (u : DBUser),
      findOne store tid = some u →
      (∀ e, env.ethQuery = .error e →
        handleWallet env store (some tid) =
          [WalletMsg.addresses u.evmAddress u.solanaAddress,
           WalletMsg.fetchError]) ∧
      (∀ wei e, env.ethQuery = .ok wei → env.solQuery = .error e →
        handleWallet env store (some tid) =
          [WalletMsg.addresses u.evmAddress u.solanaAddress,
           WalletMsg.ethBalance (formatEther wei), WalletMsg.fetchError]) := by
  intro env store tid u hu
  constructor
  · intro e he
    simp [handleWallet, balanceReplies, hu, he]
  · intro wei e hw hs
    simp [handleWallet, balanceReplies, hu, hw, hs]

/-- C1 witness: the amended theorem applied to a concrete store and a
concrete environment in which the EVM query throws. -/
theorem C1_balance_isolation_witness :
    handleWallet ⟨Except.error "rpc", Except.ok 7⟩ [u0] (some "1001") =
      [WalletMsg.addresses u0.evmAddress u0.solanaAddress,
       WalletMsg.fetchError] :=
  (C1_balance_isolation_amended ⟨Except.error "rpc", Except.ok 7⟩ [u0]
    "1001" u0 rfl).1 "rpc" rfl

lemma toFixed4_sub_abs_le (x : ℚ) : |toFixed4 x - x| ≤ 1 / 20000 := by
  have h104 : (0 : ℚ) < 10 ^ 4 := by norm_num
  have hr : |((round (x * 10 ^ 4) : ℤ) : ℚ) - x * 10 ^ 4| ≤ 1 / 2 := by
    rw [abs_sub_comm]
    exact abs_sub_round (x * 10 ^ 4)
  have hkey : toFixed4 x - x =
      (((round (x * 10 ^ 4) : ℤ) : ℚ) - x * 10 ^ 4) / 10 ^ 4 := by
    unfold toFixed4; ring
  rw [hkey, abs_div, abs_of_pos h104, div_le_iff₀ h104]
  calc |((round (x * 10 ^ 4) : ℤ) : ℚ) - x * 10 ^ 4|
      ≤ 1 / 2 := hr
    _ = 1 / 20000 * 10 ^ 4 := by norm_num

/-- C10: whenever the account lookup succeeds, the very first message
`handleWallet` emits is the one carrying both wallet addresses, whatever
the outcome of either balance query — a balance failure can never
suppress the address output. -/
theorem C10_addresses_before_balances :
    ∀ (env : WalletEnv) (store : Store) (tid : String) (u : DBUser),
      findOne store tid = some u →
      ∃ rest, handleWallet env store (some tid) =
        WalletMsg.addresses u.evmAddress u.solanaAddress :: rest := by
  intro env store tid u hu
  refine ⟨balanceReplies env, ?_⟩
  simp [handleWallet, hu]

/-- C10 witness: concrete instantiation with both queries failing; the
address message still leads the reply list. -/
theorem C10_addresses_before_balances_witness :
    ∃ rest, handleWallet ⟨Except.error "down", Except.error "down"⟩ [u0]
        (some "1001") =
      WalletMsg.addresses u0.evmAddress u0.solanaAddress :: rest :=
  C10_addresses_before_balances ⟨Except.error "down", Except.error "down"⟩
    [u0] "1001" u0 rfl

/-- C9: when both queries succeed, the displayed EVM balance is exactly
wei / 10^18 (multiplying back by 10^18 recovers the raw wei), and the
displayed Solana balance is the exact quotient lamports / 10^9 rounded to
4 decimal places: it is an integer multiple of 1/10^4 and differs from
the true quotient by at most half of 1/10^4; the division happens on the
untruncated lamport count. -/
theorem C9_unit_conversion :
    ∀ (env : WalletEnv) (store : Store) (tid : String) (u : DBUser)
      (wei lam : Nat),
      findOne store tid = some u →
      env.ethQuery = .ok wei →
      env.solQuery = .ok lam →
      handleWallet env store (some tid) =
        [WalletMsg.addresses u.evmAddress u.solanaAddress,
         WalletMsg.ethBalance (formatEther wei),
         WalletMsg.solBalance (solDisplay lam)] ∧
      formatEther wei * 10 ^ 18 = wei ∧
      (∃ n : ℤ, solDisplay lam = (n : ℚ) / 10 ^ 4) ∧
      |solDisplay lam - (lam : ℚ) / 10 ^ 9| ≤ 1 / 20000 := by
  intro env store tid u wei lam hu hw hs
  refine ⟨?_, ?_, ?_, ?_⟩
  · simp [handleWallet, balanceReplies, hu, hw, hs]
  · unfold formatEther
    field_simp
  · exact ⟨round (((lam : ℚ) / 10 ^ 9) * 10 ^ 4), rfl⟩
  · exact toFixed4_sub_abs_le _

/-- C9 witness: concrete balances (2 ETH of wei, 5.00005 SOL of lamports)
under the fixed account. -/
theorem C9_unit_conversion_witness :
    handleWallet ⟨Except.ok 2000000000000000000, Except.ok 5000050000⟩ [u0]
        (some "1001") =
      [WalletMsg.addresses u0.evmAddress u0.solanaAddress,
       WalletMsg.ethBalance (formatEther 2000000000000000000),
       WalletMsg.solBalance (solDisplay 5000050000)] ∧
    formatEther 2000000000000000000 * 10 ^ 18 = (2000000000000000000 : Nat) ∧
    (∃ n : ℤ, solDisplay 5000050000 = (n : ℚ) / 10 ^ 4) ∧
    |solDisplay 5000050000 - (5000050000 : ℚ) / 10 ^ 9| ≤ 1 / 20000 :=
  C9_unit_conversion ⟨Except.ok 2000000000000000000, Except.ok 5000050000⟩
    [u0] "1001" u0 2000000000000000000 5000050000 rfl rfl rfl

/-! ### Account provisioner (`handleStart`, `src/utils/callbacks.ts`) -/

/-- Result of one Capsule `createWalletPreGen` call: the user share and the
wallet address; `none` models a missing/empty (`falsy`) address. -/
structure GenResult where
  share : String
  address : Option String
deriving Repr, DecidableEq

/-- Collaborator outcomes for one `handleStart` call. `dbFind` is the
`User.findOne` outcome (it runs outside the `try` block), `genEvm` and
`genSolana` the two `generateAccount`/`generateSolanaAccount` calls, and
`save` the `user.save()` call; `Except.error` models a thrown exception. -/
structure StartEnv where
  dbFind : Except String (Option DBUser)
  genEvm : Except String GenResult
  genSolana : Except String GenResult
  save : Except String Unit

/-- The user-visible messages `handleStart` can emit. -/
inductive StartMsg
  | genericError
  | alreadyRegistered
  | generating
  | created
  | failedCreate
  | creationError
deriving Repr, DecidableEq

/-- Outcome of one `handleStart` call: either an exception escaped the
handler, or it completed with the store after the call, the messages
emitted, how many signer wallet-creation calls were made per chain, and
which account (if any) was then displayed via `handleWallet`. -/
inductive StartRes
  | thrown (e : String)
  | done (store : Store) (msgs : List StartMsg) (evmGenCalls solGenCalls : Nat)
      (shown : Option DBUser)
deriving Repr, DecidableEq

/-- `handleStart`: look up the chat identity; if registered, re-display the
existing account; otherwise, inside one `try` block, create the EVM
wallet, create the Solana wallet, bail out if either address is missing,
save the new document and display it; a throw inside the block is
answered by the creation-error reply. The `findOne` call is outside the
`try` block, so its exception escapes. -/
def handleStart (env : StartEnv) (store : Store) (tid? : Option String)
    (username : String) : StartRes :=
  match tid? with
  | none => .done store [.genericError] 0 0 none
  | some tid =>
    match env.dbFind with
    | .error e => .thrown e
    | .ok (some u) => .done store [.alreadyRegistered] 0 0 (some u)
    | .ok none =>
      match env.genEvm with
      | .error _ => .done store [.generating, .creationError] 1 0 none
      | .ok eth =>
        match env.genSolana with
        | .error _ => .done store [.generating, .creationError] 1 1 none
        | .ok sol =>
          match eth.address, sol.address with
          | some ea, some sa =>
            let newUser : DBUser := ⟨tid, username, eth.share, ea, sol.share, sa⟩
            match env.save with
            | .error _ => .done store [.generating, .creationError] 1 1 none
            | .ok _ =>
              .done (saveUser store newUser) [.generating, .created] 1 1
                (some newUser)
          | _, _ => .done store [.generating, .failedCreate] 1 1 none

/-- Chain-binding creation fails: one of the signer calls throws, or one of
them returns without an address. -/
def provisioningFails (env : StartEnv) : Prop :=
  (∃ e, env.genEvm = .error e) ∨ (∃ e, env.genSolana = .error e) ∨
  (∃ g, env.genEvm = .ok g ∧ g.address = none) ∨
  (∃ g, env.genSolana = .ok g ∧ g.address = none)

/-- C2: atomicity of provisioning. For an unregistered chat identity, if
either chain's wallet creation throws or yields no address, `handleStart`
completes with the store unchanged (no partial Account is written), shows
no account, and emits a failure message. -/
theorem C2_provisioning_atomicity :
    ∀ (env : StartEnv) (store : Store) (tid username : String),
      env.dbFind = .ok none →
      provisioningFails env →
      ∃ msgs ec sc,
        handleStart env store (some tid) username = .done store msgs ec sc none ∧
        (StartMsg.creationError ∈ msgs ∨ StartMsg.failedCreate ∈ msgs) := by
  intro env store tid username hdb hfail
  rcases hfail with ⟨e, he⟩ | ⟨e, he⟩ | ⟨g, hg, ha⟩ | ⟨g, hg, ha⟩
  · exact ⟨[.generating, .creationError], 1, 0,
      by simp [handleStart, hdb, he], Or.inl (by simp)⟩
  · cases hevm : env.genEvm with
    | error e2 =>
      exact ⟨[.generating, .creationError], 1, 0,
        by simp [handleStart, hdb, hevm], Or.inl (by simp)⟩
    | ok eth =>
      exact ⟨[.generating, .creationError], 1, 1,
        by simp [handleStart, hdb, hevm, he], Or.inl (by simp)⟩
  · cases hsol : env.genSolana with
    | error e2 =>
      exact ⟨[.generating, .creationError], 1, 1,
        by simp [handleStart, hdb, hg, hsol], Or.inl (by simp)⟩
    | ok sol =>
      exact ⟨[.generating, .failedCreate], 1, 1,
        by simp [handleStart, hdb, hg, hsol, ha], Or.inr (by simp)⟩
  · cases hevm : env.genEvm with
    | error e2 =>
      exact ⟨[.generating, .creationError], 1, 0,
        by simp [handleStart, hdb, hevm], Or.inl (by simp)⟩
    | ok eth =>
      cases hea : eth.address with
      | none =>
        exact ⟨[.generating, .failedCreate], 1, 1,
          by simp [handleStart, hdb, hevm, hg, ha, hea], Or.inr (by simp)⟩
      | some ea =>
        exact ⟨[.generating, .failedCreate], 1, 1,
          by simp [handleStart, hdb, hevm, hg, ha, hea], Or.inr (by simp)⟩

/-- C2 witness: concrete environment where the Solana wallet creation
throws; the store stays empty. -/
theorem C2_provisioning_atomicity_witness :
    ∃ msgs ec sc,
      handleStart
          ⟨Except.ok none, Except.ok ⟨"sh", some "0xabc"⟩,
           Except.error "capsule down", Except.ok ()⟩
          [] (some "1001") "alice" = .done [] msgs ec sc none ∧
      (StartMsg.creationError ∈ msgs ∨ StartMsg.failedCreate ∈ msgs) :=
  C2_provisioning_atomicity
    ⟨Except.ok none, Except.ok ⟨"sh", some "0xabc"⟩,
     Except.error "capsule down", Except.ok ()⟩
    [] "1001" "alice" rfl (Or.inr (Or.inl ⟨"capsule down", rfl⟩))

/-- C3: idempotence of provisioning. For a chat identity whose Account is
already in the store, `handleStart` leaves the store untouched (no second
durable write), makes zero signer wallet-creation calls on either chain,
and re-displays exactly the stored Account. -/
theorem C3_provisioning_idempotent :
    ∀ (env : StartEnv) (store : Store) (tid username : String) (u : DBUser),
      findOne store tid = some u →
      env.dbFind = .ok (findOne store tid) →
      handleStart env store (some tid) username =
        .done store [.alreadyRegistered] 0 0 (some u) := by
  intro env store tid username u hu hdb
  unfold handleStart
  rw [hdb, hu]

/-- C3 witness: the already-registered account `u0` is re-displayed and the
store is unchanged. -/
theorem C3_provisioning_idempotent_witness :
    handleStart
        ⟨Except.ok (some u0), Except.ok ⟨"sh", some "0xabc"⟩,
         Except.ok ⟨"sh2", some "Sol"⟩, Except.ok ()⟩
        [u0] (some "1001") "alice" =
      .done [u0] [.alreadyRegistered] 0 0 (some u0) :=
  C3_provisioning_idempotent
    ⟨Except.ok (some u0), Except.ok ⟨"sh", some "0xabc"⟩,
     Except.ok ⟨"sh2", some "Sol"⟩, Except.ok ()⟩
    [u0] "1001" "alice" u0 rfl rfl

/-! ### Transfer conversations (`transferETHConversation`,
`transferSOLConversation`, `src/utils/callbacks.ts`) -/

/-- Collaborator behaviour for one ETH transfer conversation: viem's
`isAddress` verdict per candidate string, JavaScript `parseFloat` (`none`
models `NaN`), and the `sendTransaction` outcome. -/
structure EthTransferEnv where
  isAddress : String → Bool
  parseFloat : String → Option ℚ
  sendTx : Except String String

/-- Outcome of one run of the ETH transfer conversation builder. The
`awaiting*` outcomes mean the run suspended at a `waitFor` with no
recorded text left. -/
inductive EthRes
  | genericError
  | noAccount
  | awaitingAddress
  | invalidAddress
  | awaitingAmount
  | invalidAmount
  | txSuccess (u : DBUser) (dest amt : String) (tx : String)
  | txFailed (u : DBUser) (dest amt : String)
deriving Repr, DecidableEq

/-- Did the run reach the `sendTransaction` call? -/
def EthRes.executorInvoked : EthRes → Bool
  | .txSuccess _ _ _ _ => true
  | .txFailed _ _ _ => true
  | _ => false

/-- The account the executor was handed, if it was invoked. -/
def EthRes.execUser : EthRes → Option DBUser
  | .txSuccess u _ _ _ => some u
  | .txFailed u _ _ => some u
  | _ => none

/-- One run of `transferETHConversation` with the recorded inbound texts
`texts`: resolve the account, take the destination address (validated by
viem `isAddress`), take the amount (validated by
`isNaN(parseFloat(x)) || parseFloat(x) <= 0`), then call
`sendTransaction` inside `try`/`catch`. -/
def transferETHRun (env : EthTransferEnv) (store : Store)
    (tid? : Option String) (texts : List String) : EthRes :=
  match tid? with
  | none => .genericError
  | some tid =>
    match findOne store tid with
    | none => .noAccount
    | some user =>
      match texts with
      | [] => .awaitingAddress
      | dest :: rest =>
        if env.isAddress dest then
          match rest with
          | [] => .awaitingAmount
          | amt :: _ =>
            match env.parseFloat amt with
            | none => .invalidAmount
            | some q =>
              if q ≤ 0 then .invalidAmount
              else
                match env.sendTx with
                | .ok tx => .txSuccess user dest amt tx
                | .error _ => .txFailed user dest amt
        else .invalidAddress

/-- Replay semantics of the conversations plugin (`@grammyjs/conversations`;
registered in `src/index.ts`): every inbound update re-runs the
conversation builder from its first line, replaying previously received
texts in order, and plain side effects such as `User.findOne` are not
wrapped in `conversation.external`, so they re-execute against the
then-current store. A completed two-step transfer session is therefore a
run against the store when the address arrived and a final run against
the store when the amount arrived (execution time); the final run decides
the session's outcome. -/
def transferETHSession (env : EthTransferEnv) (storeAtStart storeAtExec : Store)
    (tid? : Option String) (dest amt : String) : EthRes × EthRes :=
  (transferETHRun env storeAtStart tid? [dest],
   transferETHRun env storeAtExec tid? [dest, amt])

lemma transferETHRun_execUser (env : EthTransferEnv) (store : Store)
    (tid : String) (texts : List String) (u : DBUser)
    (h : (transferETHRun env store (some tid) texts).execUser = some u) :
    findOne store tid = some u := by
  unfold transferETHRun at h
  cases hf : findOne store tid with
  | none => simp [hf, EthRes.execUser] at h
  | some u2 =>
    simp only [hf] at h
    cases texts with
    | nil => simp [EthRes.execUser] at h
    | cons dest rest =>
      by_cases haddr : env.isAddress dest
      · simp only [haddr, if_true] at h
        cases rest with
        | nil => simp [EthRes.execUser] at h
        | cons amt r2 =>
          cases hpf : env.parseFloat amt with
          | none => simp [hpf, EthRes.execUser] at h
          | some q =>
            simp only [hpf] at h
            by_cases hq : q ≤ 0
            · simp [hq, EthRes.execUser] at h
            · simp only [hq, if_false] at h
              cases hs : env.sendTx with
              | ok tx => simp_all [EthRes.execUser]
              | error e => simp_all [EthRes.execUser]
      · simp [haddr, EthRes.execUser] at h

/-- C7: at execution time the account is re-resolved. Because every update
replays the conversation builder, the final run of a transfer session
performs its own `User.findOne` against the store current at execution
time: if the account is gone from that store the session ends with the
account-missing abort and the executor is never invoked, even though the
account existed at session start; and whenever the executor is invoked,
the account it is handed is the one found in the execution-time store,
not a cached session-start reference. -/
theorem C7_reresolve_account_at_execution :
    ∀ (env : EthTransferEnv) (storeAtStart storeAtExec : Store)
      (tid dest amt : String) (u1 : DBUser),
      findOne storeAtStart tid = some u1 →
      env.isAddress dest = true →
      (findOne storeAtExec tid = none →
        (transferETHSession env storeAtStart storeAtExec (some tid) dest amt).2 =
            .noAccount ∧
        ((transferETHSession env storeAtStart storeAtExec (some tid) dest
            amt).2).executorInvoked = false) ∧
      (∀ u : DBUser,
        ((transferETHSession env storeAtStart storeAtExec (some tid) dest
            amt).2).execUser = some u →
        findOne storeAtExec tid = some u) := by
  intro env S1 S2 tid dest amt u1 h1 haddr
  constructor
  · intro hnone
    constructor
    · simp [transferETHSession, transferETHRun, hnone]
    · simp [transferETHSession, transferETHRun, hnone, EthRes.executorInvoked]
  · intro u hu
    exact transferETHRun_execUser env S2 tid [dest, amt] u hu

/-- C7 witness: the account exists at session start but is gone from the
store by execution time; the final run aborts with the account-missing
outcome and the executor stays uninvoked. -/
theorem C7_reresolve_account_at_execution_witness :
    (transferETHSession
        ⟨fun _ => true, fun _ => some 1, Except.ok "0xhash"⟩ [u0] []
        (some "1001") "0xdead" "1").2 = .noAccount ∧
    ((transferETHSession
        ⟨fun _ => true, fun _ => some 1, Except.ok "0xhash"⟩ [u0] []
        (some "1001") "0xdead" "1").2).executorInvoked = false :=
  (C7_reresolve_account_at_execution
    ⟨fun _ => true, fun _ => some 1, Except.ok "0xhash"⟩ [u0] []
    "1001" "0xdead" "1" u0 rfl rfl).1 rfl

/-- How `@solana/web3.js` behaves on a destination-address string fed to
`PublicKey.isOnCurve`: a string that is not a well-formed public key makes
the `PublicKey` constructor inside `isOnCurve` throw (`malformed`);
otherwise the key parses and is or is not on the ed25519 curve. -/
inductive SolParse
  | malformed
  | parsed (onCurve : Bool)
deriving Repr, DecidableEq

/-- Collaborator behaviour for one SOL transfer conversation. -/
structure SolTransferEnv where
  isOnCurve : String → SolParse
  parseFloat : String → Option ℚ
  sendSol : Except String String

/-- Outcome of one run of the SOL transfer conversation builder.
`thrownOnCurve` is an exception escaping the handler: the
`PublicKey.isOnCurve(destAddress)` call sits outside any `try` block, so
a throw there propagates out of the conversation. -/
inductive SolRes
  | genericError
  | noAccount
  | awaitingAddress
  | thrownOnCurve (dest : String)
  | invalidAddress
  | awaitingAmount
  | invalidAmount
  | txSuccess (u : DBUser) (dest : String) (amt : ℚ) (tx : String)
  | txFailed (u : DBUser) (dest : String) (amt : ℚ)
deriving Repr, DecidableEq

/-- Did the run reach the `sendSolanaTransaction` call? -/
def SolRes.executorInvoked : SolRes → Bool
  | .txSuccess _ _ _ _ => true
  | .txFailed _ _ _ => true
  | _ => false

/-- One run of `transferSOLConversation` with the recorded inbound texts:
resolve the account, take the destination address (checked by
`PublicKey.isOnCurve`, uncaught), take the amount (checked by
`isNaN(parseFloat(x)) || parseFloat(x) <= 0`), then call
`sendSolanaTransaction(user, dest, parseFloat(amount))` inside
`try`/`catch`. -/
def transferSOLRun (env : SolTransferEnv) (store : Store)
    (tid? : Option String) (texts : List String) : SolRes :=
  match tid? with
  | none => .genericError
  | some tid =>
    match findOne store tid with
    | none => .noAccount
    | some user =>
      match texts with
      | [] => .awaitingAddress
      | dest :: rest =>
        match env.isOnCurve dest with
        | .malformed => .thrownOnCurve dest
        | .parsed false => .invalidAddress
        | .parsed true =>
          match rest with
          | [] => .awaitingAmount
          | amt :: _ =>
            match env.parseFloat amt with
            | none => .invalidAmount
            | some q =>
              if q ≤ 0 then .invalidAmount
              else
                match env.sendSol with
                | .ok tx => .txSuccess user dest q tx
                | .error _ => .txFailed user dest q

/-- The inbound amount text is rejected by
`isNaN(parseFloat(x)) || parseFloat(x) <= 0`: it fails to parse, or it
parses to a non-positive value. -/
def badAmountParse (pf : String → Option ℚ) (amt : String) : Prop :=
  pf amt = none ∨ ∃ q, pf amt = some q ∧ q ≤ 0

/-- C6: in either transfer conversation, once a valid destination has been
collected, an amount text that fails to parse or parses non-positive
drives the run to the invalid-amount abort, and the transaction executor
is not invoked. -/
theorem C6_bad_amount_aborts :
    ∀ (eenv : EthTransferEnv) (senv : SolTransferEnv) (store : Store)
      (tid dest amt : String) (u : DBUser),
      findOne store tid = some u →
      (eenv.isAddress dest = true →
        badAmountParse eenv.parseFloat amt →
        transferETHRun eenv store (some tid) [dest, amt] = .invalidAmount ∧
        (transferETHRun eenv store (some tid) [dest, amt]).executorInvoked
          = false) ∧
      (senv.isOnCurve dest = .parsed true →
        badAmountParse senv.parseFloat amt →
        transferSOLRun senv store (some tid) [dest, amt] = .invalidAmount ∧
        (transferSOLRun senv store (some tid) [dest, amt]).executorInvoked
          = false) := by
  intro eenv senv store tid dest amt u hu
  constructor
  · intro haddr hbad
    rcases hbad with hnone | ⟨q, hq, hle⟩
    · constructor <;>
        simp [transferETHRun, EthRes.executorInvoked, hu, haddr, hnone]
    · constructor <;>
        simp [transferETHRun, EthRes.executorInvoked, hu, haddr, hq, hle]
  · intro hcurve hbad
    rcases hbad with hnone | ⟨q, hq, hle⟩
    · constructor <;>
        simp [transferSOLRun, SolRes.executorInvoked, hu, hcurve, hnone]
    · constructor <;>
        simp [transferSOLRun, SolRes.executorInvoked, hu, hcurve, hq, hle]

/-- C6 witness: the ETH conversation on amount `"-3"` (parsing to -3) and
the SOL conversation on an unparsable amount both abort without invoking
the executor. -/
theorem C6_bad_amount_aborts_witness :
    (transferETHRun ⟨fun _ => true, fun _ => some (-3), Except.ok "h"⟩ [u0]
        (some "1001") ["0xdead", "-3"] = .invalidAmount ∧
      (transferETHRun ⟨fun _ => true, fun _ => some (-3), Except.ok "h"⟩ [u0]
        (some "1001") ["0xdead", "-3"]).executorInvoked = false) ∧
    (transferSOLRun ⟨fun _ => SolParse.parsed true, fun _ => none,
        Except.ok "h"⟩ [u0] (some "1001") ["SolDest", "abc"] =
        .invalidAmount ∧
      (transferSOLRun ⟨fun _ => SolParse.parsed true, fun _ => none,
        Except.ok "h"⟩ [u0] (some "1001") ["SolDest", "abc"]).executorInvoked
        = false) :=
  have h1 := C6_bad_amount_aborts
    ⟨fun _ => true, fun _ => some (-3), Except.ok "h"⟩
    ⟨fun _ => SolParse.parsed true, fun _ => none, Except.ok "h"⟩
    [u0] "1001" "0xdead" "-3" u0 rfl
  have h2 := C6_bad_amount_aborts
    ⟨fun _ => true, fun _ => some (-3), Except.ok "h"⟩
    ⟨fun _ => SolParse.parsed true, fun _ => none, Except.ok "h"⟩
    [u0] "1001" "SolDest" "abc" u0 rfl
  ⟨h1.1 rfl (Or.inr ⟨-3, rfl, by norm_num⟩), h2.2 rfl (Or.inl rfl)⟩

/-- C5 counterexample: on a syntactically malformed destination the
conversation's `PublicKey.isOnCurve` call throws and the exception
escapes the handler — it is not the graceful invalid-address abort the
claim requires for both failure kinds (the executor is not reached
either). -/
theorem C5_sol_address_validation_cex :
    transferSOLRun
        ⟨fun _ => SolParse.malformed, fun _ => some 1, Except.ok "tx"⟩ [u0]
        (some "1001") ["not-base58!!", "1"] =
      SolRes.thrownOnCurve "not-base58!!" ∧
    SolRes.thrownOnCurve "not-base58!!" ≠ SolRes.invalidAddress ∧
    (SolRes.thrownOnCurve "not-base58!!").executorInvoked = false := by
  refine ⟨rfl, by decide, rfl⟩

/-- C5 (amended): a well-formed but off-curve destination is rejected with
the graceful invalid-address abort, and the executor is only ever reached
for destinations that parse and lie on the curve; a syntactically
malformed destination, however, makes the validation call itself throw
and the exception propagates out of the conversation — the two failure
kinds are not handled in the same error class at the conversation
level. -/
theorem C5_sol_address_validation_amended :
    ∀ (env : SolTransferEnv) (store : Store) (tid dest : String)
      (rest : List String) (u : DBUser),
      findOne store tid = some u →
      (env.isOnCurve dest = .malformed →
        transferSOLRun env store (some tid) (dest :: rest) =
          .thrownOnCurve dest) ∧
      (env.isOnCurve dest = .parsed false →
        transferSOLRun env store (some tid) (dest :: rest) =
          .invalidAddress) ∧
      ((transferSOLRun env store (some tid) (dest :: rest)).executorInvoked
          = true →
        env.isOnCurve dest = .parsed true) := by
  intro env store tid dest rest u hu
  refine ⟨?_, ?_, ?_⟩
  · intro h; simp [transferSOLRun, hu, h]
  · intro h; simp [transferSOLRun, hu, h]
  · intro hexec
    cases hc : env.isOnCurve dest with
    | malformed =>
      rw [show transferSOLRun env store (some tid) (dest :: rest) =
          .thrownOnCurve dest by simp [transferSOLRun, hu, hc]] at hexec
      simp [SolRes.executorInvoked] at hexec
    | parsed b =>
      cases b with
      | false =>
        rw [show transferSOLRun env store (some tid) (dest :: rest) =
            .invalidAddress by simp [transferSOLRun, hu, hc]] at hexec
        simp [SolRes.executorInvoked] at hexec
      | true => rfl

/-- C5 witness: a parse-ok but off-curve destination aborts the session
with the invalid-address message. -/
theorem C5_sol_address_validation_witness :
    transferSOLRun
        ⟨fun _ => SolParse.parsed false, fun _ => some 1, Except.ok "tx"⟩
        [u0] (some "1001") ["OffCurve111", "1"] = SolRes.invalidAddress :=
  (C5_sol_address_validation_amended
    ⟨fun _ => SolParse.parsed false, fun _ => some 1, Except.ok "tx"⟩
    [u0] "1001" "OffCurve111" ["1"] u0 rfl).2.1 rfl

/-- C8 counterexample: a store-lookup failure in `handleStart` — the
`User.findOne` call sits before the `try` block — escapes the handler as
an exception instead of being caught and reported, refuting the claim
that every top-level handler catches every collaborator error. -/
theorem C8_error_propagation_cex :
    handleStart
        ⟨Except.error "db connection lost", Except.ok ⟨"sh", some "0xabc"⟩,
         Except.ok ⟨"sh2", some "Sol"⟩, Except.ok ()⟩
        [] (some "1001") "alice" = .thrown "db connection lost" := rfl

/-- C8 (amended): the handlers catch and report errors only from the
collaborators inside their `try` blocks. The only exception that can
escape `handleStart` is a store-lookup error; the only exception that can
escape the SOL transfer conversation's validation phase is the
`isOnCurve` throw on a malformed destination; balance-query errors in
`handleWallet` and executor errors in the ETH transfer conversation are
always caught and answered with an error message. -/
theorem C8_error_propagation_amended :
    (∀ (env : StartEnv) (store : Store) (tid? : Option String)
       (username e : String),
      handleStart env store tid? username = .thrown e →
      env.dbFind = .error e) ∧
    (∀ (env : SolTransferEnv) (store : Store) (tid? : Option String)
       (texts : List String) (d : String),
      transferSOLRun env store tid? texts = .thrownOnCurve d →
      env.isOnCurve d = .malformed) ∧
    (∀ (env : WalletEnv) (store : Store) (tid e : String) (u : DBUser),
      findOne store tid = some u →
      env.ethQuery = .error e →
      handleWallet env store (some tid) =
        [WalletMsg.addresses u.evmAddress u.solanaAddress,
         WalletMsg.fetchError]) ∧
    (∀ (env : EthTransferEnv) (store : Store) (tid dest amt e : String)
       (u : DBUser) (q : ℚ),
      findOne store tid = some u →
      env.isAddress dest = true →
      env.parseFloat amt = some q →
      ¬ q ≤ 0 →
      env.sendTx = .error e →
      transferETHRun env store (some tid) [dest, amt] =
        .txFailed u dest amt) := by
  refine ⟨?_, ?_, ?_, ?_⟩
  · intro env store tid? username e h
    unfold handleStart at h
    repeat' split at h
    all_goals simp_all
  · intro env store tid? texts d h
    unfold transferSOLRun at h
    repeat' split at h
    all_goals simp_all
  · intro env store tid e u hu he
    simp [handleWallet, balanceReplies, hu, he]
  · intro env store tid dest amt e u q hu haddr hpf hq hs
    simp [transferETHRun, hu, haddr, hpf, hq, hs]

/-- C8 witness: the amended theorem's guarded-collaborator part applied
concretely — a balance-query throw is caught and reported by
`handleWallet`, and a failing executor is caught and reported by the ETH
conversation. -/
theorem C8_error_propagation_witness :
    handleWallet ⟨Except.error "boom", Except.ok 1⟩ [u0] (some "1001") =
      [WalletMsg.addresses u0.evmAddress u0.solanaAddress,
       WalletMsg.fetchError] ∧
    transferETHRun ⟨fun _ => true, fun _ => some 2, Except.error "rpc"⟩ [u0]
        (some "1001") ["0xdead", "2"] = .txFailed u0 "0xdead" "2" :=
  ⟨C8_error_propagation_amended.2.2.1 ⟨Except.error "boom", Except.ok 1⟩
      [u0] "1001" "boom" u0 rfl rfl,
   C8_error_propagation_amended.2.2.2
      ⟨fun _ => true, fun _ => some 2, Except.error "rpc"⟩ [u0] "1001"
      "0xdead" "2" "rpc" u0 2 rfl rfl rfl (by norm_num) rfl⟩
